import Mathlib

/-!
Verification of the depth-model conversion pipeline scripts.

Shallow embedding of the conversion scripts
(export_depth_model.py, convert_legacy.py, convert_to_onnx.py,
convert_midas_to_tflite.py, convert_onnx_to_tflite.py).

Each script is modelled as a function from an oracle record — the outcomes
of its external calls (torch.onnx.export, the onnx structural checker, the
onnx-tf lowering, the TFLite compiler, file sizes on disk) — and, where the
script manipulates files, a small file-system record, to a result of type
Except PyExc together with an event trace recording the calls the script
makes in order.  The control flow of each Lean definition follows the
corresponding Python function line by line; external library calls are
resolved by the oracle.
-/

/-- A Python exception value as the scripts observe it: a TypeError carrying
its message, or any other exception carrying its message.  The scripts only
ever branch on the exception class and on substring tests of the message. -/
inductive PyExc where
  | typeError (msg : String)
  | otherExc (msg : String)
deriving DecidableEq

/-- Whether a list of characters starts with the pattern. -/
def listStartsWith : List Char → List Char → Bool
  | [], _ => true
  | _ :: _, [] => false
  | a :: as, b :: bs => a == b && listStartsWith as bs

/-- Whether the pattern occurs as a contiguous sublist. -/
def listContainsSub (pat : List Char) : List Char → Bool
  | [] => pat.isEmpty
  | c :: rest => listStartsWith pat (c :: rest) || listContainsSub pat rest

/-- The Python substring test: pyIn pat s models the expression pat in s. -/
def pyIn (pat s : String) : Bool :=
  listContainsSub pat.toList s.toList

/-- Whether an Except value is an error, that is, whether the modelled
Python call raised an exception that propagated out. -/
def raised {ε α : Type} : Except ε α → Bool
  | Except.error _ => true
  | Except.ok _ => false

namespace ExportDepthModel

/-- Configuration constant of export_depth_model.py, line 11. -/
def INPUT_SIZE : Nat := 252

/-- Configuration constant of export_depth_model.py, line 12. -/
def OPSET_VERSION : Nat := 17

/-- The expected weights file name, export_depth_model.py line 38. -/
def pth_file : String := "depth_anything_v2_vits.pth"

/-- The ONNX output path, export_depth_model.py line 56. -/
def output_path : String :=
  "depth_anything_v2_" ++ toString INPUT_SIZE ++ "x" ++ toString INPUT_SIZE
    ++ "_opset" ++ toString OPSET_VERSION ++ ".onnx"

/-- The arguments of one torch.onnx.export call as written in the source:
output path, the optional dynamo flag, opset version, declared input and
output tensor names, the shape of the dummy input tensor, and the
dynamic_axes argument (None in both calls of the source). -/
structure OnnxExportArgs where
  outputPath : String
  dynamoFlag : Option Bool
  opset_version : Nat
  input_names : List String
  output_names : List String
  inputShape : List Nat
  dynamic_axes : Option Unit
deriving DecidableEq

/-- Observable events of one run of export_model, in program order. -/
inductive Event where
  | errorMissing (name : String)
  | exportCall (args : OnnxExportArgs)
  | setEnvVar (key val : String)
  | warnSmallFile
  | structuralValidation (ok : Bool)
  | inferenceTest (ok : Bool)
deriving DecidableEq

/-- Oracle for one run of export_model: whether the weights file exists,
the outcome of the first export call (line 63), the outcome of the retry
after the environment switch (line 79), the size in bytes of the written
file, and whether the onnx structural check and the onnxruntime smoke test
succeed. -/
structure ExportEnv where
  pthExists : Bool
  firstExport : Option PyExc
  secondExport : Option PyExc
  sizeBytes : Nat
  validationOk : Bool
  inferenceOk : Bool
deriving DecidableEq

/-- Arguments of the first export call, export_depth_model.py lines 63-73:
dynamo=False, opset 17, names input/depth, dummy shape 1x3x252x252,
dynamic_axes=None. -/
def firstCallArgs : OnnxExportArgs :=
  { outputPath := output_path
    dynamoFlag := some false
    opset_version := OPSET_VERSION
    input_names := ["input"]
    output_names := ["depth"]
    inputShape := [1, 3, INPUT_SIZE, INPUT_SIZE]
    dynamic_axes := none }

/-- Arguments of the fallback export call, lines 79-88: identical except the
dynamo flag is absent. -/
def fallbackCallArgs : OnnxExportArgs :=
  { firstCallArgs with dynamoFlag := none }

/-- The trace of the fallback path up to the retry: first call, environment
switch, second call. -/
def fallbackTrace : List Event :=
  [Event.exportCall firstCallArgs,
   Event.setEnvVar "PYTORCH_ONNX_USE_LEGACY_EXPORTER" "1",
   Event.exportCall fallbackCallArgs]

/-- Lines 93-129 of export_depth_model.py, entered once an export call has
returned: the file-size check (file_size is sizeBytes divided by 2 to the 20
as an exact binary float, so the comparison with 10 is bytes below
10 * 1048576); a small file prints a warning and returns False; otherwise
the structural validation and the inference smoke test run, each inside a
try block that only prints on failure, and the function returns True. -/
def afterExportPhase (env : ExportEnv) (evs : List Event) :
    Except PyExc Bool × List Event :=
  if env.sizeBytes < 10 * 1048576 then
    (Except.ok false, evs ++ [Event.warnSmallFile])
  else
    (Except.ok true,
      evs ++ [Event.structuralValidation env.validationOk,
              Event.inferenceTest env.inferenceOk])

/-- Shallow embedding of export_model, export_depth_model.py lines 24-129.
Returns the Python result (ok of the returned Bool, or error of the
propagated exception) together with the event trace.  The first export call
is attempted; a TypeError whose message contains "dynamo" triggers the
environment switch and one retry; a TypeError without "dynamo" is re-raised;
any other exception is not caught by the except TypeError clause and
propagates. -/
def export_model (env : ExportEnv) : Except PyExc Bool × List Event :=
  if env.pthExists = false then
    (Except.ok false, [Event.errorMissing pth_file])
  else
    match env.firstExport with
    | none => afterExportPhase env [Event.exportCall firstCallArgs]
    | some (PyExc.typeError msg) =>
      if pyIn "dynamo" msg then
        match env.secondExport with
        | none => afterExportPhase env fallbackTrace
        | some e2 => (Except.error e2, fallbackTrace)
      else
        (Except.error (PyExc.typeError msg), [Event.exportCall firstCallArgs])
    | some (PyExc.otherExc msg) =>
      (Except.error (PyExc.otherExc msg), [Event.exportCall firstCallArgs])

/-- The process exit status of the script, from the __main__ block at lines
131-140: 0 when export_model returns True; sys.exit(1) when it returns
False or when any exception reaches the top-level except clause. -/
def main (env : ExportEnv) : Nat :=
  match (export_model env).1 with
  | Except.ok true => 0
  | Except.ok false => 1
  | Except.error _ => 1

/-- The torch.onnx.export calls recorded in a trace, in order. -/
def exportCallsOf (evs : List Event) : List OnnxExportArgs :=
  evs.filterMap fun e =>
    match e with
    | Event.exportCall a => some a
    | _ => none

/-- Whether the run reached the structural-validation stage. -/
def reachesValidation (evs : List Event) : Bool :=
  evs.any fun e =>
    match e with
    | Event.structuralValidation _ => true
    | _ => false

/-- Whether the run reached the inference smoke-test stage. -/
def reachesSmokeTest (evs : List Event) : Bool :=
  evs.any fun e =>
    match e with
    | Event.inferenceTest _ => true
    | _ => false

/-- The final value of an environment variable after all events of the run:
folds the setEnvVar events left to right, starting from an unset variable.
The source never deletes an environment variable, and the embedding has no
unset event. -/
def envValueAfter (key : String) (evs : List Event) : Option String :=
  List.foldl
    (fun acc e =>
      match e with
      | Event.setEnvVar k v => if k == key then some v else acc
      | _ => acc)
    none evs

/-- Whether an event sets the legacy-exporter environment switch. -/
def isSetLegacySwitch (e : Event) : Bool :=
  match e with
  | Event.setEnvVar k _ => k == "PYTORCH_ONNX_USE_LEGACY_EXPORTER"
  | _ => false

/-- Whether the declared exporter interface of one call is the fixed one of
the source: input name "input", output name "depth", dummy input shape
1x3x252x252, dynamic_axes None, opset 17. -/
def declaredInterfaceOk (c : OnnxExportArgs) : Bool :=
  c.input_names == ["input"] && c.output_names == ["depth"] &&
  c.inputShape == [1, 3, INPUT_SIZE, INPUT_SIZE] &&
  decide (c.dynamic_axes = none) && c.opset_version == OPSET_VERSION

end ExportDepthModel

namespace ConvertLegacy

/-- Configuration constant of convert_legacy.py, line 11: 518 = 37 times 14. -/
def INPUT_SIZE : Nat := 518

/-- Configuration constant of convert_legacy.py, line 12. -/
def OPSET_VERSION : Nat := 11

/-- Observable events of one run of convert_to_onnx in convert_legacy.py. -/
inductive Event where
  | errorMissing (name : String)
  | exportCall
  | warnSmallFile
deriving DecidableEq

/-- Oracle for one run of convert_legacy.py convert_to_onnx: whether the
weights file exists, the outcome of the single torch.onnx.export call, and
the size in bytes of the written file. -/
structure LegacyEnv where
  pthExists : Bool
  exportExc : Option PyExc
  sizeBytes : Nat
deriving DecidableEq

/-- Shallow embedding of convert_to_onnx, convert_legacy.py lines 25-85.
The size check at line 78 (file_size is sizeBytes divided twice by 1024 as
exact binary floats, so the comparison with 10 is bytes below 10 * 1048576)
only prints a warning: the function still returns True afterwards. -/
def convert_to_onnx (env : LegacyEnv) : Except PyExc Bool × List Event :=
  if env.pthExists = false then
    (Except.ok false, [Event.errorMissing "depth_anything_v2_vits.pth"])
  else
    match env.exportExc with
    | some e => (Except.error e, [Event.exportCall])
    | none =>
      if env.sizeBytes < 10 * 1048576 then
        (Except.ok true, [Event.exportCall, Event.warnSmallFile])
      else
        (Except.ok true, [Event.exportCall])

end ConvertLegacy

namespace ConvertMidas

/-- Input checkpoint path, convert_midas_to_tflite.py line 12. -/
def PT_PATH : String := "assets/models/dpt_swin2_tiny_256.pt"

/-- Interchange graph path, convert_midas_to_tflite.py line 13. -/
def ONNX_PATH : String := "assets/models/dpt_swin2_tiny_256.onnx"

/-- Mobile artifact path, convert_midas_to_tflite.py line 14. -/
def TFLITE_PATH : String := "assets/models/midas_small.tflite"

/-- The files this script touches: the input checkpoint, the ONNX
interchange graph at ONNX_PATH, the temp_saved_model intermediate
directory, and the TFLite mobile artifact at TFLITE_PATH. -/
structure FS where
  ptFile : Bool
  onnxFile : Bool
  tempDir : Bool
  tfliteFile : Bool
deriving DecidableEq

/-- Oracle for one run of convert_midas_to_tflite.py: outcomes of the
checkpoint load, the torch.onnx.export call, the lowering stage (onnx.load,
onnx-tf prepare and export_graph), and the TFLite compilation stage
(converter.convert). -/
structure MidasEnv where
  loadExc : Option PyExc
  exportExc : Option PyExc
  lowerExc : Option PyExc
  compileExc : Option PyExc
deriving DecidableEq

/-- Shallow embedding of convert_to_onnx, convert_midas_to_tflite.py lines
41-60: one export call writing the ONNX file at ONNX_PATH. -/
def convert_to_onnx (env : MidasEnv) (fs : FS) : Except PyExc Unit × FS :=
  match env.exportExc with
  | some e => (Except.error e, fs)
  | none => (Except.ok (), { fs with onnxFile := true })

/-- Shallow embedding of convert_to_tflite, convert_midas_to_tflite.py lines
62-96: lowering (onnx.load, prepare, export_graph writing the
temp_saved_model directory), then compilation (converter.convert); only
after compilation succeeds the TFLite file is written, the temp directory
removed and the ONNX file deleted (lines 87-93).  A failure in either stage
raises before any of the write or cleanup lines run. -/
def convert_to_tflite (env : MidasEnv) (fs : FS) : Except PyExc Unit × FS :=
  match env.lowerExc with
  | some e => (Except.error e, fs)
  | none =>
    match env.compileExc with
    | some e => (Except.error e, { fs with tempDir := true })
    | none =>
      (Except.ok (),
       { fs with tempDir := false, onnxFile := false, tfliteFile := true })

/-- Shallow embedding of main, convert_midas_to_tflite.py lines 98-121,
returning the process exit status and the final file system.  The
missing-checkpoint branch just prints and returns, and the try block
catches every Exception and prints a traceback; the script contains no
sys.exit call, so the interpreter always exits with status 0. -/
def main (env : MidasEnv) (fs : FS) : Nat × FS :=
  if fs.ptFile = false then (0, fs)
  else
    match env.loadExc with
    | some _ => (0, fs)
    | none =>
      match convert_to_onnx env fs with
      | (Except.error _, fs1) => (0, fs1)
      | (Except.ok _, fs1) =>
        match convert_to_tflite env fs1 with
        | (Except.error _, fs2) => (0, fs2)
        | (Except.ok _, fs2) => (0, fs2)

end ConvertMidas

namespace ConvertOnnxTflite

/-- The files convert_onnx_to_tflite.py touches. -/
structure FS where
  onnxFile : Bool
  tempDir : Bool
  tfliteFile : Bool
deriving DecidableEq

/-- Oracle for one run of convert_onnx_to_tflite.py: outcomes of the
lowering stage (onnx.load, prepare, export_graph) and the compilation stage
(converter.convert). -/
structure O2TEnv where
  lowerExc : Option PyExc
  compileExc : Option PyExc
deriving DecidableEq

/-- Shallow embedding of main, convert_onnx_to_tflite.py lines 10-62.  The
missing-input branch prints and returns.  There is no try/except, so an
exception from either stage propagates out of main and the interpreter
exits non-zero.  On the success path the TFLite file is written and the
temp_saved_model directory removed (lines 52-57); the ONNX file at
ONNX_PATH is never deleted by this script. -/
def main (env : O2TEnv) (fs : FS) : Except PyExc Unit × FS :=
  if fs.onnxFile = false then (Except.ok (), fs)
  else
    match env.lowerExc with
    | some e => (Except.error e, fs)
    | none =>
      match env.compileExc with
      | some e => (Except.error e, { fs with tempDir := true })
      | none =>
        (Except.ok (), { fs with tempDir := false, tfliteFile := true })

end ConvertOnnxTflite

namespace ConvertToOnnx

/-- Configuration constant of convert_to_onnx.py, line 16, with its source
comment: must be a multiple of 14 (ViT patch size), 252 = 18 times 14. -/
def INPUT_SIZE : Nat := 252

/-- The ViT patch size named by the source comment at line 16. -/
def PATCH_SIZE : Nat := 14

/-- Observable events of one run of convert_to_onnx in convert_to_onnx.py:
the missing-weights message, or the torch.onnx.export call with the dummy
input shape and opset it passes. -/
inductive Event where
  | errorMissing (name : String)
  | exportCall (inputShape : List Nat) (opset : Nat)
deriving DecidableEq

/-- Oracle for one run of convert_to_onnx.py convert_to_onnx. -/
structure C2OEnv where
  pthExists : Bool
  exportExc : Option PyExc
deriving DecidableEq

/-- Shallow embedding of convert_to_onnx, convert_to_onnx.py lines 32-101,
with the module constant INPUT_SIZE abstracted as the parameter inputSize
(the configuration surface of the script is this compile-time constant).
The body performs no divisibility or validity check on the input size: after
the weights-file check it builds the dummy input of shape
1x3xinputSizexinputSize and calls torch.onnx.export directly. -/
def convert_to_onnx_with (inputSize : Nat) (env : C2OEnv) :
    Except PyExc Bool × List Event :=
  if env.pthExists = false then
    (Except.ok false, [Event.errorMissing "depth_anything_v2_vits.pth"])
  else
    match env.exportExc with
    | some e =>
      (Except.error e, [Event.exportCall [1, 3, inputSize, inputSize] 17])
    | none =>
      (Except.ok true, [Event.exportCall [1, 3, inputSize, inputSize] 17])

/-- The script as shipped, with the constant of line 16. -/
def convert_to_onnx (env : C2OEnv) : Except PyExc Bool × List Event :=
  convert_to_onnx_with INPUT_SIZE env

/-- Whether a trace contains a torch.onnx.export attempt. -/
def exportAttempted (evs : List Event) : Bool :=
  evs.any fun e =>
    match e with
    | Event.exportCall _ _ => true
    | _ => false

end ConvertToOnnx

/-! Concrete oracle values used to exercise the embeddings on the scenarios
of the specification. -/

/-- A run of export_depth_model.py in which the dynamo flag is rejected by
the installed toolchain, the retry succeeds and the written file is 25 MB. -/
def envFallbackOk : ExportDepthModel.ExportEnv :=
  { pthExists := true
    firstExport :=
      some (PyExc.typeError
        "export() got an unexpected keyword argument dynamo")
    secondExport := none
    sizeBytes := 26214400
    validationOk := true
    inferenceOk := true }

/-- A run of export_depth_model.py in which the first export call raises a
tracing RuntimeError: no fallback applies. -/
def envTracingError : ExportDepthModel.ExportEnv :=
  { pthExists := true
    firstExport := some (PyExc.otherExc "Exporting the operator failed")
    secondExport := none
    sizeBytes := 26214400
    validationOk := true
    inferenceOk := true }

/-- A run of export_depth_model.py in which the export call succeeds but the
written file is only 5 MB, below the 10 MB plausibility threshold. -/
def envSmallFile : ExportDepthModel.ExportEnv :=
  { pthExists := true
    firstExport := none
    secondExport := none
    sizeBytes := 5242880
    validationOk := true
    inferenceOk := true }

/-- A run of export_depth_model.py in which the export succeeds at a
plausible size but the onnx structural check raises. -/
def envValidationFails : ExportDepthModel.ExportEnv :=
  { pthExists := true
    firstExport := none
    secondExport := none
    sizeBytes := 26214400
    validationOk := false
    inferenceOk := true }

/-- A run of export_depth_model.py with the weights file absent. -/
def envNoWeights : ExportDepthModel.ExportEnv :=
  { pthExists := false
    firstExport := none
    secondExport := none
    sizeBytes := 0
    validationOk := true
    inferenceOk := true }

/-- A run of convert_legacy.py succeeding with a 5 MB output file. -/
def legacyEnvSmall : ConvertLegacy.LegacyEnv :=
  { pthExists := true, exportExc := none, sizeBytes := 5242880 }

/-- A convert_midas_to_tflite.py oracle in which the TFLite compilation
stage raises. -/
def midasEnvCompileFail : ConvertMidas.MidasEnv :=
  { loadExc := none
    exportExc := none
    lowerExc := none
    compileExc := some (PyExc.otherExc "unsupported operator GridSample") }

/-- A convert_midas_to_tflite.py oracle in which the lowering stage raises. -/
def midasEnvLowerFail : ConvertMidas.MidasEnv :=
  { loadExc := none
    exportExc := none
    lowerExc := some (PyExc.otherExc "BackendIsNotSupposedToImplementIt")
    compileExc := none }

/-- A convert_midas_to_tflite.py oracle in which every stage succeeds. -/
def midasEnvAllOk : ConvertMidas.MidasEnv :=
  { loadExc := none, exportExc := none, lowerExc := none, compileExc := none }

/-- The file system at the start of a convert_midas_to_tflite.py run with
the checkpoint present and no artifacts yet. -/
def midasFS0 : ConvertMidas.FS :=
  { ptFile := true, onnxFile := false, tempDir := false, tfliteFile := false }

/-- The file system at the start of a convert_midas_to_tflite.py run with
the checkpoint absent. -/
def midasFSNoPt : ConvertMidas.FS :=
  { ptFile := false, onnxFile := false, tempDir := false, tfliteFile := false }

/-- A convert_onnx_to_tflite.py oracle in which both stages succeed. -/
def o2tEnvOk : ConvertOnnxTflite.O2TEnv :=
  { lowerExc := none, compileExc := none }

/-- A convert_onnx_to_tflite.py oracle in which the lowering stage raises. -/
def o2tEnvLowerFail : ConvertOnnxTflite.O2TEnv :=
  { lowerExc := some (PyExc.otherExc "unsupported ONNX op"), compileExc := none }

/-- The file system at the start of a convert_onnx_to_tflite.py run with
the interchange graph present. -/
def o2tFS0 : ConvertOnnxTflite.FS :=
  { onnxFile := true, tempDir := false, tfliteFile := false }

/-- A convert_to_onnx.py oracle with the weights present and a successful
export call. -/
def c2oEnvOk : ConvertToOnnx.C2OEnv :=
  { pthExists := true, exportExc := none }

/-! Helper lemmas characterizing the branches of export_model. -/

/-- With the weights file absent, export_model prints the missing-file
message and returns False without any export call. -/
theorem export_model_noWeights (env : ExportDepthModel.ExportEnv)
    (hp : env.pthExists = false) :
    ExportDepthModel.export_model env =
      (Except.ok false,
       [ExportDepthModel.Event.errorMissing ExportDepthModel.pth_file]) := by
  unfold ExportDepthModel.export_model
  rw [hp]
  simp

/-- With the weights present and the first export call succeeding,
export_model proceeds to the post-export phase with a single export call in
the trace. -/
theorem export_model_firstOk (env : ExportDepthModel.ExportEnv)
    (hp : env.pthExists = true) (h1 : env.firstExport = none) :
    ExportDepthModel.export_model env =
      ExportDepthModel.afterExportPhase env
        [ExportDepthModel.Event.exportCall ExportDepthModel.firstCallArgs] := by
  unfold ExportDepthModel.export_model
  rw [hp, h1]
  simp

/-- With the first export call raising a TypeError mentioning "dynamo",
export_model sets the environment switch, retries once, and proceeds with
the fallback trace. -/
theorem export_model_fallback (env : ExportDepthModel.ExportEnv)
    (msg : String) (hp : env.pthExists = true)
    (h1 : env.firstExport = some (PyExc.typeError msg))
    (hd : pyIn "dynamo" msg = true) :
    ExportDepthModel.export_model env =
      match env.secondExport with
      | none =>
        ExportDepthModel.afterExportPhase env ExportDepthModel.fallbackTrace
      | some e2 => (Except.error e2, ExportDepthModel.fallbackTrace) := by
  unfold ExportDepthModel.export_model
  rw [hp, h1]
  simp [hd]

/-- With the first export call raising anything other than a TypeError
mentioning "dynamo", export_model propagates that exception after the single
export call, with no fallback. -/
theorem export_model_raise (env : ExportDepthModel.ExportEnv) (e : PyExc)
    (hp : env.pthExists = true) (h1 : env.firstExport = some e)
    (hnd : ∀ m : String, e = PyExc.typeError m → pyIn "dynamo" m = false) :
    ExportDepthModel.export_model env =
      (Except.error e,
       [ExportDepthModel.Event.exportCall ExportDepthModel.firstCallArgs]) := by
  unfold ExportDepthModel.export_model
  rw [hp, h1]
  cases e with
  | typeError m => simp [hnd m rfl]
  | otherExc m => simp

/-- C1: if the first export call raises a TypeError whose message mentions
"dynamo", export_model sets the compatibility environment switch and makes
exactly one retry (two export calls in total); if the first call raises any
other exception, exactly one export call is made, the environment switch is
never set, the exception propagates out of export_model, and the process
exits with status 1. -/
theorem C1_exporter_fallback (env : ExportDepthModel.ExportEnv)
    (hp : env.pthExists = true) :
    (∀ msg : String, env.firstExport = some (PyExc.typeError msg) →
      pyIn "dynamo" msg = true →
      (ExportDepthModel.exportCallsOf
        (ExportDepthModel.export_model env).2).length = 2 ∧
      ExportDepthModel.Event.setEnvVar "PYTORCH_ONNX_USE_LEGACY_EXPORTER" "1"
        ∈ (ExportDepthModel.export_model env).2) ∧
    (∀ e : PyExc, env.firstExport = some e →
      (∀ m : String, e = PyExc.typeError m → pyIn "dynamo" m = false) →
      (ExportDepthModel.export_model env).1 = Except.error e ∧
      (ExportDepthModel.exportCallsOf
        (ExportDepthModel.export_model env).2).length = 1 ∧
      ExportDepthModel.envValueAfter "PYTORCH_ONNX_USE_LEGACY_EXPORTER"
        (ExportDepthModel.export_model env).2 = none ∧
      ExportDepthModel.main env = 1) := by
  constructor
  · intro msg h1 hd
    rw [export_model_fallback env msg hp h1 hd]
    cases env.secondExport with
    | none =>
      unfold ExportDepthModel.afterExportPhase
      by_cases hs : env.sizeBytes < 10 * 1048576 <;>
        simp [hs, ExportDepthModel.exportCallsOf,
          ExportDepthModel.fallbackTrace]
    | some e2 =>
      simp [ExportDepthModel.exportCallsOf, ExportDepthModel.fallbackTrace]
  · intro e h1 hnd
    rw [export_model_raise env e hp h1 hnd]  -- rewrites uses of export_model
    refine ⟨rfl, by simp [ExportDepthModel.exportCallsOf],
      by simp [ExportDepthModel.envValueAfter], ?_⟩
    unfold ExportDepthModel.main
    rw [export_model_raise env e hp h1 hnd]

/-- C1 witness: a concrete fallback run (the toolchain rejects the dynamo
keyword, the retry succeeds) and a concrete tracing-failure run (a
RuntimeError propagates with a single export call). -/
theorem C1_exporter_fallback_wit :
    ((ExportDepthModel.exportCallsOf
        (ExportDepthModel.export_model envFallbackOk).2).length = 2 ∧
      ExportDepthModel.Event.setEnvVar "PYTORCH_ONNX_USE_LEGACY_EXPORTER" "1"
        ∈ (ExportDepthModel.export_model envFallbackOk).2) ∧
    ((ExportDepthModel.export_model envTracingError).1 =
        Except.error (PyExc.otherExc "Exporting the operator failed") ∧
      (ExportDepthModel.exportCallsOf
        (ExportDepthModel.export_model envTracingError).2).length = 1 ∧
      ExportDepthModel.envValueAfter "PYTORCH_ONNX_USE_LEGACY_EXPORTER"
        (ExportDepthModel.export_model envTracingError).2 = none ∧
      ExportDepthModel.main envTracingError = 1) :=
  ⟨(C1_exporter_fallback envFallbackOk rfl).1
      "export() got an unexpected keyword argument dynamo" rfl (by decide),
   (C1_exporter_fallback envTracingError rfl).2
      (PyExc.otherExc "Exporting the operator failed") rfl
      (by intro m hm; cases hm)⟩

/-- C2 counterexample: in export_depth_model.py an exported file of 5 MB
(below the 10 MB threshold) makes export_model return False and the process
exit with status 1, and the run never reaches the structural-validation or
smoke-test stages — contradicting the claim that a small file is only a
non-fatal warning after which the run continues to those stages. -/
theorem C2_counterexample :
    ExportDepthModel.main envSmallFile = 1 ∧
    (ExportDepthModel.export_model envSmallFile).1 = Except.ok false ∧
    ExportDepthModel.reachesValidation
      (ExportDepthModel.export_model envSmallFile).2 = false ∧
    ExportDepthModel.reachesSmokeTest
      (ExportDepthModel.export_model envSmallFile).2 = false :=
  ⟨rfl, rfl, rfl, rfl⟩

/-- C2 amended: a sub-threshold file size is a non-fatal warning only in
convert_legacy.py, where convert_to_onnx warns and still returns True; in
export_depth_model.py a file below 10 MB causes export_model to return
False — the process exits 1 and the structural-validation and smoke-test
stages are skipped. -/
theorem C2_small_file_fatal
    (lenv : ConvertLegacy.LegacyEnv) (hl1 : lenv.pthExists = true)
    (hl2 : lenv.exportExc = none) (hl3 : lenv.sizeBytes < 10 * 1048576)
    (env : ExportDepthModel.ExportEnv) (he1 : env.pthExists = true)
    (he2 : env.firstExport = none) (he3 : env.sizeBytes < 10 * 1048576) :
    ((ConvertLegacy.convert_to_onnx lenv).1 = Except.ok true ∧
     ConvertLegacy.Event.warnSmallFile ∈ (ConvertLegacy.convert_to_onnx lenv).2) ∧
    ((ExportDepthModel.export_model env).1 = Except.ok false ∧
     ExportDepthModel.main env = 1 ∧
     ExportDepthModel.reachesValidation
       (ExportDepthModel.export_model env).2 = false ∧
     ExportDepthModel.reachesSmokeTest
       (ExportDepthModel.export_model env).2 = false) := by
  have hleg : ConvertLegacy.convert_to_onnx lenv =
      (Except.ok true,
       [ConvertLegacy.Event.exportCall, ConvertLegacy.Event.warnSmallFile]) := by
    unfold ConvertLegacy.convert_to_onnx
    rw [hl1, hl2]
    simp [hl3]
  have hexp : ExportDepthModel.export_model env =
      (Except.ok false,
       [ExportDepthModel.Event.exportCall ExportDepthModel.firstCallArgs,
        ExportDepthModel.Event.warnSmallFile]) := by
    rw [export_model_firstOk env he1 he2]
    unfold ExportDepthModel.afterExportPhase
    simp [he3]
  refine ⟨⟨?_, ?_⟩, ?_, ?_, ?_, ?_⟩
  · rw [hleg]
  · rw [hleg]; simp
  · rw [hexp]
  · unfold ExportDepthModel.main
    rw [hexp]
  · rw [hexp]; decide
  · rw [hexp]; decide

/-- C2 witness: the amended statement at a concrete 5 MB run of each
script. -/
theorem C2_small_file_fatal_wit :
    ((ConvertLegacy.convert_to_onnx legacyEnvSmall).1 = Except.ok true ∧
     ConvertLegacy.Event.warnSmallFile ∈
       (ConvertLegacy.convert_to_onnx legacyEnvSmall).2) ∧
    ((ExportDepthModel.export_model envSmallFile).1 = Except.ok false ∧
     ExportDepthModel.main envSmallFile = 1 ∧
     ExportDepthModel.reachesValidation
       (ExportDepthModel.export_model envSmallFile).2 = false ∧
     ExportDepthModel.reachesSmokeTest
       (ExportDepthModel.export_model envSmallFile).2 = false) :=
  C2_small_file_fatal legacyEnvSmall rfl rfl (by decide)
    envSmallFile rfl rfl (by decide)

/-- C3 counterexample: in convert_midas_to_tflite.py a fatal TFLite
compilation failure (the transcoding stage raises, no mobile artifact is
produced) still ends with process exit status 0, because main catches every
exception and the script never calls sys.exit — contradicting the claim
that a fatal transcoding failure always yields a non-zero exit status. -/
theorem C3_counterexample :
    (ConvertMidas.main midasEnvCompileFail midasFS0).1 = 0 ∧
    (ConvertMidas.main midasEnvCompileFail midasFS0).2.tfliteFile = false := by
  decide

/-- C3 amended: in export_depth_model.py the exit status is 0 exactly when
export_model returns True (reaching the Done state, warnings included) and 1
otherwise; but convert_midas_to_tflite.py catches every exception inside
main and contains no sys.exit, so its process exit status is 0 on every
run, including runs whose loading or transcoding stage fails fatally. -/
theorem C3_exit_status (env : ExportDepthModel.ExportEnv)
    (menv : ConvertMidas.MidasEnv) (mfs : ConvertMidas.FS) :
    (ExportDepthModel.main env = 0 ↔
      (ExportDepthModel.export_model env).1 = Except.ok true) ∧
    (ConvertMidas.main menv mfs).1 = 0 := by
  constructor
  · unfold ExportDepthModel.main
    cases h : (ExportDepthModel.export_model env).1 with
    | ok b => cases b <;> simp
    | error e => simp
  · unfold ConvertMidas.main
    by_cases hpt : mfs.ptFile = false
    · rw [if_pos hpt]
    · rw [if_neg hpt]
      cases menv.loadExc with
      | some e => rfl
      | none =>
        unfold ConvertMidas.convert_to_onnx
        cases menv.exportExc with
        | some e => rfl
        | none =>
          unfold ConvertMidas.convert_to_tflite
          cases menv.lowerExc with
          | some e => rfl
          | none =>
            cases menv.compileExc with
            | some e => rfl
            | none => rfl

/-- C4 counterexample: with the checkpoint absent, convert_midas_to_tflite
prints the missing-file message and returns from main, so the process exits
with status 0 — contradicting the claim that a missing weights file always
yields a non-zero exit status. -/
theorem C4_counterexample :
    (ConvertMidas.main midasEnvAllOk midasFSNoPt).1 = 0 ∧
    (ConvertMidas.main midasEnvAllOk midasFSNoPt).2 = midasFSNoPt := by
  decide

/-- C4 amended: with the weights file absent, both scripts report the exact
expected filename and create no output files; export_depth_model.py exits
with status 1, but convert_midas_to_tflite.py returns from main normally
and its process exits with status 0. -/
theorem C4_missing_weights (env : ExportDepthModel.ExportEnv)
    (he : env.pthExists = false)
    (menv : ConvertMidas.MidasEnv) (mfs : ConvertMidas.FS)
    (hm : mfs.ptFile = false) :
    ((ExportDepthModel.export_model env).2 =
       [ExportDepthModel.Event.errorMissing "depth_anything_v2_vits.pth"] ∧
     ExportDepthModel.main env = 1 ∧
     ExportDepthModel.exportCallsOf (ExportDepthModel.export_model env).2 = []) ∧
    ConvertMidas.main menv mfs = (0, mfs) := by
  have hexp := export_model_noWeights env he
  refine ⟨⟨?_, ?_, ?_⟩, ?_⟩
  · rw [hexp]; rfl
  · unfold ExportDepthModel.main
    rw [hexp]
  · rw [hexp]; rfl
  · unfold ConvertMidas.main
    rw [if_pos hm]

/-- C4 witness: the amended statement at a concrete run of each script with
the weights file absent. -/
theorem C4_missing_weights_wit :
    ((ExportDepthModel.export_model envNoWeights).2 =
       [ExportDepthModel.Event.errorMissing "depth_anything_v2_vits.pth"] ∧
     ExportDepthModel.main envNoWeights = 1 ∧
     ExportDepthModel.exportCallsOf
       (ExportDepthModel.export_model envNoWeights).2 = []) ∧
    ConvertMidas.main midasEnvAllOk midasFSNoPt = (0, midasFSNoPt) :=
  C4_missing_weights envNoWeights rfl midasEnvAllOk midasFSNoPt rfl

/-- Helper: when the lowering or the compilation stage raises,
convert_to_tflite propagates the exception, leaves the TFLite artifact
untouched and keeps the ONNX interchange file. -/
theorem midas_tflite_fail (menv : ConvertMidas.MidasEnv)
    (fs : ConvertMidas.FS)
    (hmf : menv.lowerExc ≠ none ∨ menv.compileExc ≠ none) :
    raised (ConvertMidas.convert_to_tflite menv fs).1 = true ∧
    (ConvertMidas.convert_to_tflite menv fs).2.tfliteFile = fs.tfliteFile ∧
    (ConvertMidas.convert_to_tflite menv fs).2.onnxFile = fs.onnxFile := by
  unfold ConvertMidas.convert_to_tflite
  cases hl : menv.lowerExc with
  | some e => simp [raised]
  | none =>
    cases hc : menv.compileExc with
    | some e => simp [raised]
    | none => simp_all

/-- Helper: with checkpoint present, and loading and export succeeding,
main reaches convert_to_tflite on the file system holding the freshly
written ONNX file, and returns exit status 0 with the resulting file
system. -/
theorem midas_main_reaches_tflite (menv : ConvertMidas.MidasEnv)
    (mfs : ConvertMidas.FS) (hpt : mfs.ptFile = true)
    (hld : menv.loadExc = none) (hex : menv.exportExc = none) :
    ConvertMidas.main menv mfs =
      (0, (ConvertMidas.convert_to_tflite menv
            { mfs with onnxFile := true }).2) := by
  unfold ConvertMidas.main ConvertMidas.convert_to_onnx
  rw [if_neg (by simp [hpt]), hld, hex]
  cases h : ConvertMidas.convert_to_tflite menv { mfs with onnxFile := true } with
  | mk r fs2 => cases r <;> simp [h]

/-- Helper: when the lowering or the compilation stage raises in
convert_onnx_to_tflite.py, main propagates the exception (the interpreter
exits non-zero), the TFLite artifact is untouched and the ONNX file stays
on disk. -/
theorem o2t_main_fail (oenv : ConvertOnnxTflite.O2TEnv)
    (ofs : ConvertOnnxTflite.FS) (hof : ofs.onnxFile = true)
    (hov : oenv.lowerExc ≠ none ∨ oenv.compileExc ≠ none) :
    raised (ConvertOnnxTflite.main oenv ofs).1 = true ∧
    (ConvertOnnxTflite.main oenv ofs).2.tfliteFile = ofs.tfliteFile ∧
    (ConvertOnnxTflite.main oenv ofs).2.onnxFile = true := by
  unfold ConvertOnnxTflite.main
  rw [if_neg (by simp [hof])]
  cases hl : oenv.lowerExc with
  | some e => simp [raised, hof]
  | none =>
    cases hc : oenv.compileExc with
    | some e => simp [raised, hof]
    | none => simp_all

/-- C5: in both transcoding scripts, if the lowering or the compilation
stage fails, the mobile artifact at the canonical path is untouched (the
write only happens after compilation returns) and the ONNX interchange
file is preserved, since cleanup runs only after successful compilation;
in convert_onnx_to_tflite.py the exception moreover propagates out of
main. -/
theorem C5_transcoder_failure_preserves (menv : ConvertMidas.MidasEnv)
    (mfs : ConvertMidas.FS) (hpt : mfs.ptFile = true)
    (hld : menv.loadExc = none) (hex : menv.exportExc = none)
    (hmf : menv.lowerExc ≠ none ∨ menv.compileExc ≠ none)
    (oenv : ConvertOnnxTflite.O2TEnv) (ofs : ConvertOnnxTflite.FS)
    (hof : ofs.onnxFile = true)
    (hov : oenv.lowerExc ≠ none ∨ oenv.compileExc ≠ none) :
    ((ConvertMidas.main menv mfs).2.tfliteFile = mfs.tfliteFile ∧
     (ConvertMidas.main menv mfs).2.onnxFile = true) ∧
    (raised (ConvertOnnxTflite.main oenv ofs).1 = true ∧
     (ConvertOnnxTflite.main oenv ofs).2.tfliteFile = ofs.tfliteFile ∧
     (ConvertOnnxTflite.main oenv ofs).2.onnxFile = true) := by
  refine ⟨?_, o2t_main_fail oenv ofs hof hov⟩
  rw [midas_main_reaches_tflite menv mfs hpt hld hex]
  have key := midas_tflite_fail menv { mfs with onnxFile := true } hmf
  exact ⟨by simpa using key.2.1, by simpa using key.2.2⟩

/-- C5 witness: a concrete convert_midas_to_tflite run whose compilation
stage raises and a concrete convert_onnx_to_tflite run whose lowering stage
raises. -/
theorem C5_transcoder_failure_preserves_wit :
    ((ConvertMidas.main midasEnvCompileFail midasFS0).2.tfliteFile =
        midasFS0.tfliteFile ∧
     (ConvertMidas.main midasEnvCompileFail midasFS0).2.onnxFile = true) ∧
    (raised (ConvertOnnxTflite.main o2tEnvLowerFail o2tFS0).1 = true ∧
     (ConvertOnnxTflite.main o2tEnvLowerFail o2tFS0).2.tfliteFile =
        o2tFS0.tfliteFile ∧
     (ConvertOnnxTflite.main o2tEnvLowerFail o2tFS0).2.onnxFile = true) :=
  C5_transcoder_failure_preserves midasEnvCompileFail midasFS0 rfl rfl rfl
    (Or.inr (by decide)) o2tEnvLowerFail o2tFS0 rfl (Or.inl (by decide))

/-- C6 counterexample: a fully successful convert_onnx_to_tflite.py run
writes the TFLite artifact and removes the temp directory but leaves the
ONNX interchange file on disk — contradicting the claim that on successful
completion of stage 2 the interchange graph file is deleted. -/
theorem C6_counterexample :
    raised (ConvertOnnxTflite.main o2tEnvOk o2tFS0).1 = false ∧
    (ConvertOnnxTflite.main o2tEnvOk o2tFS0).2.tfliteFile = true ∧
    (ConvertOnnxTflite.main o2tEnvOk o2tFS0).2.tempDir = false ∧
    (ConvertOnnxTflite.main o2tEnvOk o2tFS0).2.onnxFile = true := by
  decide

/-- C6 amended: on successful completion of the compilation stage,
convert_midas_to_tflite.py deletes both the temp_saved_model directory and
the ONNX interchange file, leaving only the mobile artifact; but
convert_onnx_to_tflite.py deletes only the temp_saved_model directory and
the ONNX interchange file remains on disk after a successful run. -/
theorem C6_cleanup_on_success (menv : ConvertMidas.MidasEnv)
    (mfs : ConvertMidas.FS)
    (h1 : menv.lowerExc = none) (h2 : menv.compileExc = none)
    (oenv : ConvertOnnxTflite.O2TEnv) (ofs : ConvertOnnxTflite.FS)
    (ho1 : oenv.lowerExc = none) (ho2 : oenv.compileExc = none)
    (hof : ofs.onnxFile = true) :
    ConvertMidas.convert_to_tflite menv mfs =
      (Except.ok (),
       { mfs with tempDir := false, onnxFile := false, tfliteFile := true }) ∧
    ConvertOnnxTflite.main oenv ofs =
      (Except.ok (), { ofs with tempDir := false, tfliteFile := true }) ∧
    (ConvertOnnxTflite.main oenv ofs).2.onnxFile = true := by
  have hm : ConvertMidas.convert_to_tflite menv mfs =
      (Except.ok (),
       { mfs with tempDir := false, onnxFile := false, tfliteFile := true }) := by
    unfold ConvertMidas.convert_to_tflite
    rw [h1, h2]
  have ho : ConvertOnnxTflite.main oenv ofs =
      (Except.ok (), { ofs with tempDir := false, tfliteFile := true }) := by
    unfold ConvertOnnxTflite.main
    rw [if_neg (by simp [hof]), ho1, ho2]
  exact ⟨hm, ho, by rw [ho]; simpa using hof⟩

/-- C6 witness: the amended statement at a concrete successful run of each
script. -/
theorem C6_cleanup_on_success_wit :
    ConvertMidas.convert_to_tflite midasEnvAllOk midasFS0 =
      (Except.ok (),
       { midasFS0 with
          tempDir := false, onnxFile := false, tfliteFile := true }) ∧
    ConvertOnnxTflite.main o2tEnvOk o2tFS0 =
      (Except.ok (), { o2tFS0 with tempDir := false, tfliteFile := true }) ∧
    (ConvertOnnxTflite.main o2tEnvOk o2tFS0).2.onnxFile = true :=
  C6_cleanup_on_success midasEnvAllOk midasFS0 rfl rfl o2tEnvOk o2tFS0
    rfl rfl rfl

/-- C7 counterexample: with the configuration constant set to 253, which is
not a multiple of the patch size 14, convert_to_onnx performs no
configuration validation and raises no InvalidConfiguration signal: it
proceeds directly to the export attempt and returns True — contradicting
the claim that such a size fails validation before any export attempt. -/
theorem C7_counterexample :
    253 % ConvertToOnnx.PATCH_SIZE ≠ 0 ∧
    ConvertToOnnx.exportAttempted
      (ConvertToOnnx.convert_to_onnx_with 253 c2oEnvOk).2 = true ∧
    (ConvertToOnnx.convert_to_onnx_with 253 c2oEnvOk).1 = Except.ok true :=
  ⟨by decide, by decide, rfl⟩

/-- C7 amended: the scripts perform no input-size validation at all — for
every configured size, once the weights file is found the export call is
attempted directly, whatever the remainder modulo 14; the divisibility
constraint lives only in a source comment, and every shipped configuration
constant (252 in convert_to_onnx.py and export_depth_model.py, 518 in
convert_legacy.py) does satisfy it, so the boundary is never exercised. -/
theorem C7_no_size_validation (inputSize : Nat)
    (env : ConvertToOnnx.C2OEnv) (hp : env.pthExists = true) :
    ConvertToOnnx.exportAttempted
      (ConvertToOnnx.convert_to_onnx_with inputSize env).2 = true ∧
    ConvertToOnnx.INPUT_SIZE % ConvertToOnnx.PATCH_SIZE = 0 ∧
    ExportDepthModel.INPUT_SIZE % ConvertToOnnx.PATCH_SIZE = 0 ∧
    ConvertLegacy.INPUT_SIZE % ConvertToOnnx.PATCH_SIZE = 0 := by
  refine ⟨?_, by decide, by decide, by decide⟩
  unfold ConvertToOnnx.convert_to_onnx_with
  rw [if_neg (by simp [hp])]
  cases env.exportExc <;> simp [ConvertToOnnx.exportAttempted]

/-- C7 witness: the amended statement at the concrete size 253 with the
weights present. -/
theorem C7_no_size_validation_wit :
    ConvertToOnnx.exportAttempted
      (ConvertToOnnx.convert_to_onnx_with 253 c2oEnvOk).2 = true ∧
    ConvertToOnnx.INPUT_SIZE % ConvertToOnnx.PATCH_SIZE = 0 ∧
    ExportDepthModel.INPUT_SIZE % ConvertToOnnx.PATCH_SIZE = 0 ∧
    ConvertLegacy.INPUT_SIZE % ConvertToOnnx.PATCH_SIZE = 0 :=
  C7_no_size_validation 253 c2oEnvOk rfl

/-- C8: the structural-validation outcome is non-fatal and advisory: the
result of export_model does not depend on whether the onnx structural check
succeeds, a run reaches the validation stage exactly when it also reaches
the smoke-test stage, and every run that reaches the validation stage
returns True. -/
theorem C8_validation_nonfatal (env : ExportDepthModel.ExportEnv)
    (b : Bool) :
    (ExportDepthModel.export_model { env with validationOk := b }).1 =
      (ExportDepthModel.export_model env).1 ∧
    ExportDepthModel.reachesValidation
        (ExportDepthModel.export_model env).2 =
      ExportDepthModel.reachesSmokeTest
        (ExportDepthModel.export_model env).2 ∧
    (ExportDepthModel.reachesValidation
        (ExportDepthModel.export_model env).2 = true →
      (ExportDepthModel.export_model env).1 = Except.ok true) := by
  unfold ExportDepthModel.export_model ExportDepthModel.afterExportPhase
    ExportDepthModel.reachesValidation ExportDepthModel.reachesSmokeTest
  rcases env with ⟨pth, fe, se, sz, v, i⟩
  cases pth <;> rcases fe with _ | (msg | msg) <;> rcases se with _ | e2 <;>
    by_cases hs : sz < 10 * 1048576 <;>
    simp [hs, ExportDepthModel.fallbackTrace] <;>
    by_cases hd : pyIn "dynamo" msg <;>
    simp [hd, hs]

/-- C8 witness: a concrete run whose structural check raises still returns
True, and flipping the check outcome does not change the result. -/
theorem C8_validation_nonfatal_wit :
    (ExportDepthModel.export_model
        { envValidationFails with validationOk := true }).1 =
      (ExportDepthModel.export_model envValidationFails).1 ∧
    ExportDepthModel.reachesValidation
        (ExportDepthModel.export_model envValidationFails).2 =
      ExportDepthModel.reachesSmokeTest
        (ExportDepthModel.export_model envValidationFails).2 ∧
    (ExportDepthModel.export_model envValidationFails).1 = Except.ok true :=
  ⟨(C8_validation_nonfatal envValidationFails true).1,
   (C8_validation_nonfatal envValidationFails true).2.1,
   (C8_validation_nonfatal envValidationFails true).2.2 (by decide)⟩

/-- Helper: the post-export phase makes no further export calls: the export
calls of its trace are exactly the export calls of the trace it was entered
with. -/
theorem exportCalls_afterExport (env : ExportDepthModel.ExportEnv)
    (evs : List ExportDepthModel.Event) :
    ExportDepthModel.exportCallsOf
        (ExportDepthModel.afterExportPhase env evs).2 =
      ExportDepthModel.exportCallsOf evs := by
  unfold ExportDepthModel.afterExportPhase
  by_cases hs : env.sizeBytes < 10 * 1048576 <;>
    simp [hs, ExportDepthModel.exportCallsOf, List.filterMap_append]

/-- C9: on every run, every torch.onnx.export call made by export_model
declares the same fixed interface — input tensor name "input", output
tensor name "depth", dummy input shape 1x3x252x252, dynamic_axes None,
opset 17.  Hence any two independent export runs declare identical
input/output tensor names and identical fixed shapes. -/
theorem C9_deterministic_interface (env : ExportDepthModel.ExportEnv) :
    (ExportDepthModel.exportCallsOf
        (ExportDepthModel.export_model env).2).all
      ExportDepthModel.declaredInterfaceOk = true := by
  cases hp : env.pthExists with
  | false => rw [export_model_noWeights env hp]; decide
  | true =>
    rcases hfe : env.firstExport with _ | e
    · rw [export_model_firstOk env hp hfe, exportCalls_afterExport]
      decide
    · rcases e with msg | msg
      · cases hd : pyIn "dynamo" msg with
        | true =>
          rw [export_model_fallback env msg hp hfe hd]
          rcases hse : env.secondExport with _ | e2
          · rw [exportCalls_afterExport]; decide
          · show (ExportDepthModel.exportCallsOf
                ExportDepthModel.fallbackTrace).all
                ExportDepthModel.declaredInterfaceOk = true
            decide
        | false =>
          rw [export_model_raise env (PyExc.typeError msg) hp hfe
            (by intro m hm; cases hm; exact hd)]
          show (ExportDepthModel.exportCallsOf
              [ExportDepthModel.Event.exportCall
                ExportDepthModel.firstCallArgs]).all
              ExportDepthModel.declaredInterfaceOk = true
          decide
      · rw [export_model_raise env (PyExc.otherExc msg) hp hfe
          (by intro m hm; cases hm)]
        show (ExportDepthModel.exportCallsOf
            [ExportDepthModel.Event.exportCall
              ExportDepthModel.firstCallArgs]).all
            ExportDepthModel.declaredInterfaceOk = true
        decide

/-- C10: whenever the fallback path is taken (the first export call raised a
TypeError mentioning "dynamo"), the environment variable
PYTORCH_ONNX_USE_LEGACY_EXPORTER is set to "1" by exactly one set event,
the script contains no operation that unsets it, and its final value after
the whole run is "1", whatever the outcome of the retry and of the later
stages — the fallback permanently mutates process-global state. -/
theorem C10_env_switch_persistent (env : ExportDepthModel.ExportEnv)
    (msg : String) (hp : env.pthExists = true)
    (h1 : env.firstExport = some (PyExc.typeError msg))
    (hd : pyIn "dynamo" msg = true) :
    ExportDepthModel.envValueAfter "PYTORCH_ONNX_USE_LEGACY_EXPORTER"
      (ExportDepthModel.export_model env).2 = some "1" ∧
    ((ExportDepthModel.export_model env).2.filter
      ExportDepthModel.isSetLegacySwitch).length = 1 := by
  rw [export_model_fallback env msg hp h1 hd]
  rcases hse : env.secondExport with _ | e2
  · unfold ExportDepthModel.afterExportPhase
    by_cases hs : env.sizeBytes < 10 * 1048576 <;>
      simp [hs, ExportDepthModel.envValueAfter, ExportDepthModel.fallbackTrace,
        ExportDepthModel.isSetLegacySwitch]
  · simp [ExportDepthModel.envValueAfter, ExportDepthModel.fallbackTrace,
      ExportDepthModel.isSetLegacySwitch]

/-- C10 witness: the concrete fallback run. -/
theorem C10_env_switch_persistent_wit :
    ExportDepthModel.envValueAfter "PYTORCH_ONNX_USE_LEGACY_EXPORTER"
      (ExportDepthModel.export_model envFallbackOk).2 = some "1" ∧
    ((ExportDepthModel.export_model envFallbackOk).2.filter
      ExportDepthModel.isSetLegacySwitch).length = 1 :=
  C10_env_switch_persistent envFallbackOk
    "export() got an unexpected keyword argument dynamo" rfl rfl (by decide)
